import Mathlib

/-!
Shallow embedding of the adaptive collection controller of
`agent/data_collection_agent.py` (class `DataCollectionAgent`), covering the
request-pacing/backoff state machine, the success-rate-driven strategy
adjustment, and the quality-scoring pipeline, together with theorems that
settle the frozen claims about this controller.

Python floats are modelled as rationals (`ℚ`), Python dicts holding record
fields as association lists, and the external fetch capability as an explicit
outcome value consumed by one fetch cycle.
-/

namespace Agent

/-- Field values occurring in raw and processed item dictionaries: the agent
only ever manipulates string-valued and integer-valued fields
(`process_data` produces strings for `name`, `type`, `rarity`, `collected_at`
and an integer for `elixir_cost`). -/
inductive Value
  | str (s : String)
  | int (n : Int)
deriving DecidableEq

/-- Python truthiness of a field value: a string is truthy iff non-empty, an
integer iff non-zero.  This is the test `item[field]` performs when used in a
boolean context in `validate_data` and `check_completeness`. -/
def Value.truthy : Value → Bool
  | .str s => s != ""
  | .int n => n != 0

/-- Emptiness of a field value in the ordinary, spec-language sense: only the
empty string is an empty value; an integer (`0` included) is never empty.
Used to state claims phrased with the words "empty value". -/
def Value.isEmptyVal : Value → Bool
  | .str s => s == ""
  | .int _ => false

/-- A record/item dictionary: an association list from field names to values
(Python dict with unique keys; lookup returns the first binding). -/
abbrev Item := List (String × Value)

/-- Dictionary lookup: `item[field]` when the key is present, `none`
otherwise (`field in item` is `(lookupField it f).isSome`). -/
def lookupField (it : Item) (f : String) : Option Value :=
  (it.find? (fun p => p.1 == f)).map (·.2)

/-- Dictionary lookup with default: Python's `item.get(field, default)`. -/
def getFieldD (it : Item) (f : String) (d : Value) : Value :=
  (lookupField it f).getD d

/-- The test `field in item and item[field]` (presence plus truthiness) that
`validate_data` and `check_completeness` perform per required field. -/
def fieldTruthy (it : Item) (f : String) : Bool :=
  match lookupField it f with
  | some v => v.truthy
  | none => false

/-- The `collection_stats` dictionary created in `__init__`:
counters plus the (never-updated) `data_quality_score` slot. -/
structure Stats where
  total_requests : Nat
  successful_requests : Nat
  failed_requests : Nat
  data_quality_score : ℚ
deriving DecidableEq

/-- The stats dictionary as initialised in `__init__`. -/
def init_stats : Stats := ⟨0, 0, 0, 0⟩

/-- The merged configuration dictionary, restricted to the keys the modelled
functions actually read.  Each field records one JSON path:
`agent_base_delay` is `agent_settings.base_delay` (merged default 1.0);
`max_requests` is `agent_settings.max_requests` (merged default 100);
`base_delay_toplevel` is the top-level key `base_delay`, which the documented
configuration schema never sets but `respectful_delay` reads via
`config.get`; `primary_api` is `api_settings.primary_api` when present;
`fallback_apis` is `api_settings.fallback_apis` (absent means empty);
`required_fields` is `data_quality.required_fields`;
`max_age_hours` is `data_quality.max_age_hours`. -/
structure Config where
  agent_base_delay : ℚ := 1
  max_requests : Nat := 100
  base_delay_toplevel : Option ℚ := none
  primary_api : Option String := none
  fallback_apis : List String := []
  required_fields : List String := []
  max_age_hours : ℚ := 24

/-- A parsed JSON response body, as far as the controller inspects it: the
optional `items` key holding the list of raw card dictionaries
(`raw_data.get('items', [])` / `'items' not in raw_data`). -/
structure RawData where
  items : Option (List Item)
deriving DecidableEq

/-- Outcome of one call to the fetch capability inside `make_api_request`:
a 200 response with a JSON-parseable body, a 200 response whose body fails
`response.json()` (the raised decode error is caught by the trailing
exception handlers), a non-200 status (403/429/401/other), or a
network-level exception (DNS, timeout, connection, other). -/
inductive FetchResult
  | ok (body : RawData)
  | okBadJson
  | httpError
  | netError
deriving DecidableEq

/-- Marks the 200-with-unparseable-body outcome. -/
def FetchResult.isBadJson : FetchResult → Bool
  | .okBadJson => true
  | _ => false

/-- Mutable state of the agent object relevant to the controller:
the stats counters, the strategy variables `delay_multiplier` and
`current_api`, and the accumulated `data_store`. -/
structure AgentState where
  stats : Stats
  delay_multiplier : ℚ
  current_api : String
  data_store : List Item
deriving DecidableEq

/-- Agent state as built by `__init__`: zeroed stats, `delay_multiplier = 1.0`,
`current_api = config['api_settings'].get('primary_api', 'default')`, empty
data store. -/
def init_state (cfg : Config) : AgentState :=
  { stats := init_stats
    delay_multiplier := 1
    current_api := cfg.primary_api.getD "default"
    data_store := [] }

/-- Source `get_success_rate`: `1.0` when no requests were made, else
`successful_requests / total_requests`. -/
def get_success_rate (s : Stats) : ℚ :=
  if s.total_requests = 0 then 1
  else (s.successful_requests : ℚ) / (s.total_requests : ℚ)

/-- Source `collection_complete`: `total_requests >= max_requests`. -/
def collection_complete (cfg : Config) (s : Stats) : Bool :=
  s.total_requests ≥ cfg.max_requests

/-- Source `make_api_request`, projected onto the state it mutates and the
value it returns.  `total_requests` is incremented unconditionally at entry.
A 200 outcome increments `successful_requests` and returns the parsed body;
a 200 outcome whose body fails `response.json()` first increments
`successful_requests` (done before parsing) and then, in the exception
handler that catches the decode error, also increments `failed_requests`
and returns `None`; every non-200 status and every network exception
increments `failed_requests` and returns `None`. -/
def make_api_request (r : FetchResult) (s : Stats) : Stats × Option RawData :=
  let s1 := { s with total_requests := s.total_requests + 1 }
  match r with
  | .ok body =>
      ({ s1 with successful_requests := s1.successful_requests + 1 }, some body)
  | .okBadJson =>
      ({ s1 with successful_requests := s1.successful_requests + 1,
                 failed_requests := s1.failed_requests + 1 }, none)
  | .httpError =>
      ({ s1 with failed_requests := s1.failed_requests + 1 }, none)
  | .netError =>
      ({ s1 with failed_requests := s1.failed_requests + 1 }, none)

/-- Folds a sequence of fetch-cycle outcomes through `make_api_request`,
observing only the stats counters. -/
def run_requests (trace : List FetchResult) (s : Stats) : Stats :=
  trace.foldl (fun s r => (make_api_request r s).1) s

/-- Source `try_fallback_api`: switch `current_api` to the first fallback
endpoint when the fallback list is non-empty and its head differs from the
current endpoint. -/
def try_fallback_api (cfg : Config) (st : AgentState) : AgentState :=
  match cfg.fallback_apis with
  | [] => st
  | f :: _ => if st.current_api ≠ f then { st with current_api := f } else st

/-- Source `adjust_strategy`: reads the success rate; below 0.5 doubles the
delay multiplier and tries the fallback endpoint; above 0.9 multiplies the
delay multiplier by 0.8; otherwise leaves the state unchanged (the trailing
`log_strategy_change` only logs). -/
def adjust_strategy (cfg : Config) (st : AgentState) : AgentState :=
  if get_success_rate st.stats < 1/2 then
    try_fallback_api cfg { st with delay_multiplier := st.delay_multiplier * 2 }
  else if get_success_rate st.stats > 9/10 then
    { st with delay_multiplier := st.delay_multiplier * (4/5) }
  else
    st

/-- Iterated `adjust_strategy`: one call per element of `statsList`, each call
observing the stats counters current at that moment (between calls the fetch
cycles mutate them arbitrarily). -/
def adjust_seq (cfg : Config) (statsList : List Stats) (st : AgentState) : AgentState :=
  statsList.foldl (fun st s => adjust_strategy cfg { st with stats := s }) st

/-- Sleep duration computed by source `respectful_delay`:
`config.get('base_delay', 1.0) * delay_multiplier * jitter`, the jitter being
drawn uniformly from [0.5, 1.5] each call.  Note the source reads the
TOP-LEVEL config key `base_delay`, not `agent_settings.base_delay`. -/
def respectful_delay_duration (cfg : Config) (delay_multiplier jitter : ℚ) : ℚ :=
  cfg.base_delay_toplevel.getD 1 * delay_multiplier * jitter

/-- Source `process_data` applied to one raw item: field extraction with
defaults (`item.get('name', '')`, `item.get('elixirCost', 0)`, ...) plus the
collection timestamp. -/
def process_item (nowIso : String) (it : Item) : Item :=
  [("name", getFieldD it "name" (.str "")),
   ("elixir_cost", getFieldD it "elixirCost" (.int 0)),
   ("type", getFieldD it "type" (.str "")),
   ("rarity", getFieldD it "rarity" (.str "")),
   ("collected_at", .str nowIso)]

/-- Source `process_data`: `None` when the body lacks an `items` key (or is
falsy), else the transformed items in order. -/
def process_data (nowIso : String) (raw : RawData) : Option (List Item) :=
  match raw.items with
  | none => none
  | some items => some (items.map (process_item nowIso))

/-- Source `validate_data`: `False` on an empty (or `None`) batch, `False` as
soon as any item lacks a required field or holds a falsy value for it,
`True` otherwise. -/
def validate_data (required_fields : List String) (data : List Item) : Bool :=
  !data.isEmpty && data.all (fun it => required_fields.all (fieldTruthy it))

/-- The validate-then-store step of the collection loop
(`if self.validate_data(processed_data): self.store_data(processed_data)`):
`store_data` extends `data_store` with the whole batch; stats are untouched. -/
def store_step (cfg : Config) (processed : List Item) (st : AgentState) : AgentState :=
  if validate_data cfg.required_fields processed then
    { st with data_store := st.data_store ++ processed }
  else
    st

/-- Source `check_completeness`: fraction of stored records having every
required field present and truthy; 0 on an empty store. -/
def check_completeness (cfg : Config) (store : List Item) : ℚ :=
  if store.isEmpty then 0
  else (store.countP (fun it => cfg.required_fields.all (fieldTruthy it)) : ℚ) /
    (store.length : ℚ)

/-- Source `check_accuracy`: hardcoded placeholder 0.9. -/
def check_accuracy : ℚ := 9/10

/-- Source `check_consistency`: hardcoded placeholder 0.85. -/
def check_consistency : ℚ := 17/20

/-- Freshness test performed per item by source `check_timeliness`: the item
has a `collected_at` key, its value is a string that
`datetime.fromisoformat` parses (modelled by the environment's `parseIso`,
yielding an epoch timestamp in seconds), and the age in hours is at most
`max_age_hours`.  A missing key, a non-string value (a `TypeError` swallowed
by the bare `except`) or a parse failure makes the item non-fresh. -/
def isFresh (cfg : Config) (parseIso : String → Option ℚ) (now : ℚ) (it : Item) : Bool :=
  match lookupField it "collected_at" with
  | some (.str s) =>
      match parseIso s with
      | some t => decide ((now - t) / 3600 ≤ cfg.max_age_hours)
      | none => false
  | some (.int _) => false
  | none => false

/-- Source `check_timeliness`: fraction of stored records that are fresh;
0 on an empty store. -/
def check_timeliness (cfg : Config) (parseIso : String → Option ℚ) (now : ℚ)
    (store : List Item) : ℚ :=
  if store.isEmpty then 0
  else (store.countP (isFresh cfg parseIso now) : ℚ) / (store.length : ℚ)

/-- Source `assess_data_quality`: 0 on an empty store, else the unweighted
mean of the four sub-scores. -/
def assess_data_quality (cfg : Config) (parseIso : String → Option ℚ) (now : ℚ)
    (store : List Item) : ℚ :=
  if store.isEmpty then 0
  else (check_completeness cfg store + check_accuracy + check_consistency +
    check_timeliness cfg parseIso now store) / 4

/-- The tail of the loop body after the fetch cycle
(`if data: processed_data = self.process_data(data); if self.validate_data(...)`):
a truthy returned body is processed, validated and, on success, stored. -/
def post_fetch (cfg : Config) (nowIso : String) (body : Option RawData)
    (st : AgentState) : AgentState :=
  match body with
  | none => st
  | some raw =>
      match process_data nowIso raw with
      | none => st
      | some processed => store_step cfg processed st

/-- One iteration of the source `collect_data` loop body: the quality score is
computed and discarded (it drives no control flow, so it is omitted here);
strategy adjustment fires when the success rate is below 0.8; one fetch
cycle runs; its returned body goes through the process/validate/store tail;
the trailing `respectful_delay` only sleeps. -/
def collect_iteration (cfg : Config) (r : FetchResult) (nowIso : String)
    (st : AgentState) : AgentState :=
  let st1 := if get_success_rate st.stats < 8/10 then adjust_strategy cfg st else st
  let res := make_api_request r st1.stats
  post_fetch cfg nowIso res.2 { st1 with stats := res.1 }

/-- Per-cycle increment of the total-requests counter. -/
theorem make_api_request_total (r : FetchResult) (s : Stats) :
    ((make_api_request r s).1).total_requests = s.total_requests + 1 := by
  cases r <;> rfl

/-- Strategy adjustment never touches the stats counters. -/
theorem adjust_strategy_stats (cfg : Config) (st : AgentState) :
    (adjust_strategy cfg st).stats = st.stats := by
  unfold adjust_strategy try_fallback_api
  cases cfg.fallback_apis <;> dsimp only <;> split <;> (try split) <;> rfl

/-- The validate-then-store step never touches the stats counters. -/
theorem store_step_stats (cfg : Config) (processed : List Item) (st : AgentState) :
    (store_step cfg processed st).stats = st.stats := by
  unfold store_step
  split <;> rfl

/-- The process/validate/store tail never touches the stats counters. -/
theorem post_fetch_stats (cfg : Config) (nowIso : String) (body : Option RawData)
    (st : AgentState) : (post_fetch cfg nowIso body st).stats = st.stats := by
  cases body with
  | none => rfl
  | some raw =>
      unfold post_fetch
      dsimp only
      cases hp : process_data nowIso raw with
      | none => simp only [hp]
      | some processed => simp only [hp, store_step_stats]

/-- Every loop iteration increments `total_requests` by exactly one,
whatever the fetch outcome. -/
theorem collect_iteration_total (cfg : Config) (r : FetchResult) (nowIso : String)
    (st : AgentState) :
    (collect_iteration cfg r nowIso st).stats.total_requests =
      st.stats.total_requests + 1 := by
  simp only [collect_iteration, post_fetch_stats, make_api_request_total]
  split
  · rw [adjust_strategy_stats]
  · rfl

/-- Source `collect_data`: loop while collection is not complete, one
iteration per environment step (the environment supplies the fetch outcome
and the collection timestamp of step `k`).  Returns the final state and the
number of iterations performed. -/
def collect_data (cfg : Config) (env : Nat → FetchResult) (iso : Nat → String)
    (k : Nat) (st : AgentState) : AgentState × Nat :=
  if h : st.stats.total_requests ≥ cfg.max_requests then (st, 0)
  else
    let next := collect_data cfg env iso (k + 1) (collect_iteration cfg (env k) (iso k) st)
    (next.1, next.2 + 1)
termination_by cfg.max_requests - st.stats.total_requests
decreasing_by
  have h1 := collect_iteration_total cfg (env k) (iso k) st
  omega

/-- Per-cycle change of the success/failure counters: one increment for an
ordinary outcome, two for a 200 response whose body fails to parse (success
is counted before parsing, failure in the exception handler). -/
theorem make_api_request_sf (r : FetchResult) (s : Stats) :
    ((make_api_request r s).1).successful_requests +
      ((make_api_request r s).1).failed_requests =
    s.successful_requests + s.failed_requests +
      (if r.isBadJson then 2 else 1) := by
  cases r <;> simp [make_api_request, FetchResult.isBadJson] <;> omega

/-- Total requests after a trace of fetch cycles. -/
theorem run_requests_total (trace : List FetchResult) (s : Stats) :
    (run_requests trace s).total_requests = s.total_requests + trace.length := by
  induction trace generalizing s with
  | nil => rfl
  | cons r t ih =>
      have hstep : run_requests (r :: t) s = run_requests t ((make_api_request r s).1) := rfl
      rw [hstep, ih, make_api_request_total]
      simp only [List.length_cons]
      omega

/-- Success plus failure counters after a trace of fetch cycles: each cycle
contributes one increment, plus one extra per 200-with-unparseable-body
cycle. -/
theorem run_requests_sf (trace : List FetchResult) (s : Stats) :
    (run_requests trace s).successful_requests +
      (run_requests trace s).failed_requests =
    s.successful_requests + s.failed_requests + trace.length +
      trace.countP FetchResult.isBadJson := by
  induction trace generalizing s with
  | nil => simp [run_requests]
  | cons r t ih =>
      have hstep : run_requests (r :: t) s = run_requests t ((make_api_request r s).1) := rfl
      rw [hstep, ih]
      have hsf := make_api_request_sf r s
      cases hb : r.isBadJson <;>
        simp only [hb, List.countP_cons, List.length_cons, if_true, if_false,
          cond_true, cond_false, Bool.false_eq_true, ite_true, ite_false] at hsf ⊢ <;>
        omega

/-- C1 counterexample: after the single fetch cycle whose outcome is a 200
response with an unparseable body, the counters read
`total_requests = 1`, `successful_requests = 1`, `failed_requests = 1`,
so `successful_requests + failed_requests ≠ total_requests` — the claimed
invariant fails on that sequence of cycles. -/
theorem C1_counters_counterexample :
    ¬ ((run_requests [FetchResult.okBadJson] init_stats).successful_requests +
        (run_requests [FetchResult.okBadJson] init_stats).failed_requests =
        (run_requests [FetchResult.okBadJson] init_stats).total_requests) := by
  decide

/-- C1 (amended): over every sequence of fetch cycles,
`successful_requests + failed_requests` equals `total_requests` plus the
number of cycles whose outcome was a 200 response with an unparseable body
(such a cycle increments both counters); in particular the claimed invariant
`successful_requests + failed_requests == total_requests` holds at every
observation point of every sequence containing no such cycle. -/
theorem C1_counters_amended (trace : List FetchResult) :
    ((run_requests trace init_stats).successful_requests +
        (run_requests trace init_stats).failed_requests =
      (run_requests trace init_stats).total_requests +
        trace.countP FetchResult.isBadJson) ∧
    (trace.countP FetchResult.isBadJson = 0 →
      (run_requests trace init_stats).successful_requests +
        (run_requests trace init_stats).failed_requests =
      (run_requests trace init_stats).total_requests) := by
  have h1 := run_requests_sf trace init_stats
  have h2 := run_requests_total trace init_stats
  have e1 : init_stats.successful_requests = 0 := rfl
  have e2 : init_stats.failed_requests = 0 := rfl
  have e3 : init_stats.total_requests = 0 := rfl
  rw [e1, e2] at h1
  rw [e3] at h2
  constructor
  · omega
  · intro h0
    omega

/-- Witness for the amended C1 theorem at a concrete two-cycle trace. -/
theorem C1_counters_witness :
    (run_requests [FetchResult.netError, FetchResult.ok ⟨none⟩]
        init_stats).successful_requests +
      (run_requests [FetchResult.netError, FetchResult.ok ⟨none⟩]
        init_stats).failed_requests =
    (run_requests [FetchResult.netError, FetchResult.ok ⟨none⟩]
        init_stats).total_requests :=
  (C1_counters_amended [FetchResult.netError, FetchResult.ok ⟨none⟩]).2 (by decide)

/-- C4: `get_success_rate` returns exactly 1 when `total_requests = 0` and
`successful_requests / total_requests` whenever `total_requests > 0`. -/
theorem C4_success_rate (s : Stats) :
    (s.total_requests = 0 → get_success_rate s = 1) ∧
    (0 < s.total_requests →
      get_success_rate s = (s.successful_requests : ℚ) / (s.total_requests : ℚ)) := by
  constructor
  · intro h
    simp [get_success_rate, h]
  · intro h
    rw [get_success_rate, if_neg (by omega)]

/-- Witness for C4 at zero requests and at 3 successes out of 4. -/
theorem C4_success_rate_witness :
    get_success_rate init_stats = 1 ∧ get_success_rate ⟨4, 3, 1, 0⟩ = (3 : ℚ) / 4 := by
  refine ⟨(C4_success_rate init_stats).1 rfl, ?_⟩
  have h := (C4_success_rate ⟨4, 3, 1, 0⟩).2 (by norm_num)
  simpa using h

/-- C7 (code bug): the source's `respectful_delay` reads the TOP-LEVEL config
key `base_delay` via `config.get('base_delay', 1.0)`, not the documented
`agent_settings.base_delay` that `load_config` defaults and the repository's
own usage guide and test script describe; so with
`agent_settings.base_delay = 5` and no top-level `base_delay` key, a cycle
with `delay_multiplier = 2` and jitter 1 sleeps 2 seconds where the claim
says 5 * 2 * 1 = 10 seconds. -/
theorem C7_base_delay_code_bug :
    respectful_delay_duration { agent_base_delay := 5 } 2 1 = 2 ∧
    ({ agent_base_delay := 5 : Config }).agent_base_delay * 2 * 1 = 10 ∧
    respectful_delay_duration { agent_base_delay := 5 } 2 1 ≠
      ({ agent_base_delay := 5 : Config }).agent_base_delay * 2 * 1 := by
  refine ⟨by norm_num [respectful_delay_duration], by norm_num, by norm_num [respectful_delay_duration]⟩

/-- The fallback switch never touches the delay multiplier. -/
theorem try_fallback_multiplier (cfg : Config) (st : AgentState) :
    (try_fallback_api cfg st).delay_multiplier = st.delay_multiplier := by
  unfold try_fallback_api
  cases hf : cfg.fallback_apis with
  | nil => rfl
  | cons f fs =>
      dsimp only
      split <;> rfl

/-- Endpoint effect of the fallback switch when a fallback list is present. -/
theorem try_fallback_endpoint_cons (cfg : Config) (st : AgentState) (f : String)
    (fs : List String) (hf : cfg.fallback_apis = f :: fs) :
    (try_fallback_api cfg st).current_api =
      if st.current_api ≠ f then f else st.current_api := by
  unfold try_fallback_api
  rw [hf]
  dsimp only
  split
  next h => rfl
  next h => rfl

/-- Endpoint effect of the fallback switch when no fallback is configured. -/
theorem try_fallback_endpoint_nil (cfg : Config) (st : AgentState)
    (hf : cfg.fallback_apis = []) :
    (try_fallback_api cfg st).current_api = st.current_api := by
  unfold try_fallback_api
  rw [hf]

/-- Multiplier effect of strategy adjustment below the 0.5 threshold. -/
theorem adjust_strategy_mult_low (cfg : Config) (st : AgentState)
    (h : get_success_rate st.stats < 1/2) :
    (adjust_strategy cfg st).delay_multiplier = st.delay_multiplier * 2 := by
  unfold adjust_strategy
  rw [if_pos h, try_fallback_multiplier]

/-- Multiplier effect of strategy adjustment above the 0.9 threshold. -/
theorem adjust_strategy_mult_high (cfg : Config) (st : AgentState)
    (h : get_success_rate st.stats > 9/10) :
    (adjust_strategy cfg st).delay_multiplier = st.delay_multiplier * (4/5) := by
  unfold adjust_strategy
  rw [if_neg (by linarith), if_pos h]

/-- C2: `adjust_strategy` performs exactly the claimed case analysis on the
success rate: below 0.5 the delay multiplier doubles and the endpoint
switches to the first fallback exactly when one exists and differs from the
current endpoint; above 0.9 the multiplier is multiplied by 0.8; in the
closed band [0.5, 0.9] the state is returned unchanged. -/
theorem C2_adjust_strategy_cases (cfg : Config) (st : AgentState) :
    (get_success_rate st.stats < 1/2 →
      (adjust_strategy cfg st).delay_multiplier = st.delay_multiplier * 2 ∧
      (∀ f fs, cfg.fallback_apis = f :: fs →
        (adjust_strategy cfg st).current_api =
          if st.current_api ≠ f then f else st.current_api) ∧
      (cfg.fallback_apis = [] →
        (adjust_strategy cfg st).current_api = st.current_api)) ∧
    (get_success_rate st.stats > 9/10 →
      (adjust_strategy cfg st).delay_multiplier = st.delay_multiplier * (4/5) ∧
      (adjust_strategy cfg st).current_api = st.current_api) ∧
    (1/2 ≤ get_success_rate st.stats → get_success_rate st.stats ≤ 9/10 →
      adjust_strategy cfg st = st) := by
  refine ⟨fun h => ⟨adjust_strategy_mult_low cfg st h, fun f fs hf => ?_, fun hf => ?_⟩,
    fun h => ?_, fun h1 h2 => ?_⟩
  · unfold adjust_strategy
    rw [if_pos h]
    exact try_fallback_endpoint_cons cfg _ f fs hf
  · unfold adjust_strategy
    rw [if_pos h]
    exact try_fallback_endpoint_nil cfg _ hf
  · refine ⟨adjust_strategy_mult_high cfg st h, ?_⟩
    unfold adjust_strategy
    rw [if_neg (by linarith), if_pos h]
  · unfold adjust_strategy
    rw [if_neg (by linarith), if_neg (by linarith)]

/-- Witness for C2 at a mid-band state: 7 successes out of 10 requests give
rate 0.7, and adjustment leaves the state untouched. -/
theorem C2_adjust_strategy_witness :
    adjust_strategy { fallback_apis := ["fb"] } ⟨⟨10, 7, 3, 0⟩, 1, "default", []⟩ =
      ⟨⟨10, 7, 3, 0⟩, 1, "default", []⟩ :=
  (C2_adjust_strategy_cases { fallback_apis := ["fb"] } ⟨⟨10, 7, 3, 0⟩, 1, "default", []⟩).2.2
    (by norm_num [get_success_rate]) (by norm_num [get_success_rate])

/-- Strategy adjustment keeps a positive delay multiplier positive. -/
theorem adjust_strategy_mult_pos (cfg : Config) (st : AgentState)
    (h : 0 < st.delay_multiplier) :
    0 < (adjust_strategy cfg st).delay_multiplier := by
  unfold adjust_strategy
  split
  · rw [try_fallback_multiplier]
    show 0 < st.delay_multiplier * 2
    linarith
  · split
    · show 0 < st.delay_multiplier * (4/5)
      linarith
    · exact h

/-- Iterated strategy adjustment keeps a positive delay multiplier positive. -/
theorem adjust_seq_mult_pos (cfg : Config) (l : List Stats) :
    ∀ st : AgentState, 0 < st.delay_multiplier →
      0 < (adjust_seq cfg l st).delay_multiplier := by
  induction l with
  | nil => exact fun st h => h
  | cons s t ih =>
      intro st h
      have hstep : adjust_seq cfg (s :: t) st =
          adjust_seq cfg t (adjust_strategy cfg { st with stats := s }) := rfl
      rw [hstep]
      exact ih _ (adjust_strategy_mult_pos cfg _ h)

/-- A stats snapshot with every request failed: success rate 0. -/
def statsAllFailed : Stats := ⟨1, 0, 1, 0⟩

/-- A stats snapshot with every request successful: success rate 1. -/
def statsAllOk : Stats := ⟨1, 1, 0, 0⟩

/-- Each adjustment against an all-failed snapshot doubles the multiplier. -/
theorem adjust_seq_replicate_low (cfg : Config) (n : Nat) :
    ∀ st : AgentState,
      (adjust_seq cfg (List.replicate n statsAllFailed) st).delay_multiplier =
        st.delay_multiplier * 2 ^ n := by
  induction n with
  | zero => intro st; simp [adjust_seq]
  | succ n ih =>
      intro st
      have hstep : adjust_seq cfg (List.replicate (n + 1) statsAllFailed) st =
          adjust_seq cfg (List.replicate n statsAllFailed)
            (adjust_strategy cfg { st with stats := statsAllFailed }) := rfl
      rw [hstep, ih]
      have hrate : get_success_rate statsAllFailed < 1/2 := by
        norm_num [get_success_rate, statsAllFailed]
      have hm := adjust_strategy_mult_low cfg { st with stats := statsAllFailed } hrate
      rw [hm]
      ring

/-- Each adjustment against an all-successful snapshot multiplies the
multiplier by 0.8. -/
theorem adjust_seq_replicate_high (cfg : Config) (n : Nat) :
    ∀ st : AgentState,
      (adjust_seq cfg (List.replicate n statsAllOk) st).delay_multiplier =
        st.delay_multiplier * (4/5) ^ n := by
  induction n with
  | zero => intro st; simp [adjust_seq]
  | succ n ih =>
      intro st
      have hstep : adjust_seq cfg (List.replicate (n + 1) statsAllOk) st =
          adjust_seq cfg (List.replicate n statsAllOk)
            (adjust_strategy cfg { st with stats := statsAllOk }) := rfl
      rw [hstep, ih]
      have hrate : get_success_rate statsAllOk > 9/10 := by
        norm_num [get_success_rate, statsAllOk]
      have hm := adjust_strategy_mult_high cfg { st with stats := statsAllOk } hrate
      rw [hm]
      ring

/-- C9: the delay multiplier starts at 1.0, stays strictly positive under
every sequence of `adjust_strategy` calls (each call multiplies it by 2, by
0.8, or leaves it), yet has no upper bound and no positive floor: suitable
success-rate histories drive it above any bound and below any positive
epsilon. -/
theorem C9_delay_multiplier (cfg : Config) :
    (init_state cfg).delay_multiplier = 1 ∧
    (∀ (statsList : List Stats) (st : AgentState), 0 < st.delay_multiplier →
      0 < (adjust_seq cfg statsList st).delay_multiplier) ∧
    (∀ B : ℚ, 0 < B → ∃ statsList : List Stats,
      B < (adjust_seq cfg statsList (init_state cfg)).delay_multiplier) ∧
    (∀ ε : ℚ, 0 < ε → ∃ statsList : List Stats,
      (adjust_seq cfg statsList (init_state cfg)).delay_multiplier < ε) := by
  refine ⟨rfl, fun l st h => adjust_seq_mult_pos cfg l st h, fun B _ => ?_, fun ε hε => ?_⟩
  · obtain ⟨n, hn⟩ := pow_unbounded_of_one_lt B (by norm_num : (1 : ℚ) < 2)
    refine ⟨List.replicate n statsAllFailed, ?_⟩
    rw [adjust_seq_replicate_low, show (init_state cfg).delay_multiplier = 1 from rfl,
      one_mul]
    exact hn
  · obtain ⟨n, hn⟩ := exists_pow_lt_of_lt_one hε (by norm_num : (4/5 : ℚ) < 1)
    refine ⟨List.replicate n statsAllOk, ?_⟩
    rw [adjust_seq_replicate_high, show (init_state cfg).delay_multiplier = 1 from rfl,
      one_mul]
    exact hn

/-- Witness for C9: positivity after no adjustments, a history exceeding 1000,
and a history dropping below 1/1000, all on the default configuration. -/
theorem C9_delay_multiplier_witness :
    0 < (adjust_seq {} [] (init_state {})).delay_multiplier ∧
    (∃ l : List Stats,
      (1000 : ℚ) < (adjust_seq {} l (init_state {})).delay_multiplier) ∧
    (∃ l : List Stats,
      (adjust_seq {} l (init_state {})).delay_multiplier < 1/1000) :=
  ⟨(C9_delay_multiplier {}).2.1 [] (init_state {}) (by norm_num [init_state]),
   (C9_delay_multiplier {}).2.2.1 1000 (by norm_num),
   (C9_delay_multiplier {}).2.2.2 (1/1000) (by norm_num)⟩

/-- A non-empty list has `isEmpty = false`. -/
theorem isEmpty_false_of_ne_nil {α : Type} (l : List α) (h : l ≠ []) :
    l.isEmpty = false := by
  cases l with
  | nil => exact absurd rfl h
  | cons a t => rfl

/-- Characterisation of `validate_data` succeeding: the batch is non-empty and
every item has every required field present and truthy. -/
theorem validate_data_eq_true (required : List String) (data : List Item) :
    validate_data required data = true ↔
      data ≠ [] ∧ ∀ it ∈ data, ∀ f ∈ required, fieldTruthy it f = true := by
  constructor
  · intro h
    rw [validate_data, Bool.and_eq_true, Bool.not_eq_true'] at h
    refine ⟨fun hnil => by rw [hnil] at h; exact absurd h.1 (by simp), ?_⟩
    intro it hit f hf
    have := (List.all_eq_true.1 h.2) it hit
    exact (List.all_eq_true.1 this) f hf
  · rintro ⟨hne, hall⟩
    rw [validate_data, Bool.and_eq_true, Bool.not_eq_true']
    refine ⟨isEmpty_false_of_ne_nil data hne, ?_⟩
    exact List.all_eq_true.2 fun it hit => List.all_eq_true.2 fun f hf => hall it hit f hf

/-- One bad field in one item makes `validate_data` reject the whole batch. -/
theorem validate_data_false_of_bad (required : List String) (batch : List Item)
    (it : Item) (hit : it ∈ batch) (f : String) (hf : f ∈ required)
    (hbad : fieldTruthy it f = false) :
    validate_data required batch = false := by
  cases hv : validate_data required batch with
  | false => rfl
  | true =>
      have h := ((validate_data_eq_true required batch).1 hv).2 it hit f hf
      rw [hbad] at h
      exact absurd h (by simp)

/-- A rejected batch leaves the whole agent state untouched. -/
theorem store_step_of_invalid (cfg : Config) (batch : List Item) (st : AgentState)
    (h : validate_data cfg.required_fields batch = false) :
    store_step cfg batch st = st := by
  simp [store_step, h]

/-- An accepted batch is appended in order to the data store. -/
theorem store_step_of_valid (cfg : Config) (batch : List Item) (st : AgentState)
    (h : validate_data cfg.required_fields batch = true) :
    (store_step cfg batch st).data_store = st.data_store ++ batch := by
  simp [store_step, h]

/-- C3 (amended): batch validation and storage are all-or-nothing over
truthiness: if any record of the batch lacks a required field or holds a
falsy value for it (empty string or zero), the whole batch is discarded and
the state — counters included — is unchanged; if every record holds every
required field with a truthy value, all records are appended to the data
store in order and the counters are unchanged. -/
theorem C3_all_or_nothing (cfg : Config) (batch : List Item) (st : AgentState) :
    ((∃ it ∈ batch, ∃ f ∈ cfg.required_fields, fieldTruthy it f = false) →
      store_step cfg batch st = st) ∧
    ((∀ it ∈ batch, ∀ f ∈ cfg.required_fields, fieldTruthy it f = true) →
      (store_step cfg batch st).data_store = st.data_store ++ batch ∧
      (store_step cfg batch st).stats = st.stats) := by
  constructor
  · rintro ⟨it, hit, f, hf, hbad⟩
    exact store_step_of_invalid cfg batch st
      (validate_data_false_of_bad cfg.required_fields batch it hit f hf hbad)
  · intro hall
    by_cases hb : batch = []
    · subst hb
      refine ⟨?_, store_step_stats cfg [] st⟩
      have hv : validate_data cfg.required_fields [] = false := rfl
      rw [store_step_of_invalid cfg [] st hv]
      simp
    · have hv : validate_data cfg.required_fields batch = true :=
        (validate_data_eq_true cfg.required_fields batch).2 ⟨hb, hall⟩
      exact ⟨store_step_of_valid cfg batch st hv, store_step_stats cfg batch st⟩

/-- A processed card whose required fields are all present and truthy. -/
def cardGood : Item :=
  [("name", Value.str "Knight"), ("elixir_cost", Value.int 3),
   ("type", Value.str "Troop"), ("rarity", Value.str "Common"),
   ("collected_at", Value.str "2026-10-12T00:00:00")]

/-- A processed card identical to `cardGood` except that its elixir cost is
the integer 0: every field is present and none holds an empty value, yet the
value 0 is falsy. -/
def cardZeroElixir : Item :=
  [("name", Value.str "Knight"), ("elixir_cost", Value.int 0),
   ("type", Value.str "Troop"), ("rarity", Value.str "Common"),
   ("collected_at", Value.str "2026-10-12T00:00:00")]

/-- Configuration requiring the four transformed card fields. -/
def cfgFourFields : Config :=
  { required_fields := ["name", "elixir_cost", "type", "rarity"] }

/-- Witness for the amended C3 theorem: a batch of one fully-truthy card is
appended whole, with the counters untouched. -/
theorem C3_all_or_nothing_witness :
    (store_step cfgFourFields [cardGood] (init_state cfgFourFields)).data_store =
      (init_state cfgFourFields).data_store ++ [cardGood] ∧
    (store_step cfgFourFields [cardGood] (init_state cfgFourFields)).stats =
      (init_state cfgFourFields).stats :=
  (C3_all_or_nothing cfgFourFields [cardGood] (init_state cfgFourFields)).2
    (by decide)

/-- C3 counterexample: in the batch `[cardZeroElixir]` every configured
required field is present on every record and none holds an empty value
(the lookup of each required field yields a value whose emptiness test is
false), yet `validate_data` rejects the batch and the storage step stores
zero records — refuting the claim that presence plus non-emptiness of all
required fields suffices for the batch to be stored. -/
theorem C3_counterexample :
    (∀ f ∈ ["name", "elixir_cost", "type", "rarity"],
      (lookupField cardZeroElixir f).map Value.isEmptyVal = some false) ∧
    validate_data ["name", "elixir_cost", "type", "rarity"] [cardZeroElixir] = false ∧
    store_step cfgFourFields [cardZeroElixir] (init_state cfgFourFields) =
      init_state cfgFourFields ∧
    (store_step cfgFourFields [cardZeroElixir] (init_state cfgFourFields)).data_store
      = [] := by
  refine ⟨by decide, by decide, by decide, by decide⟩

/-- C10: validation rejects on any falsy required-field value, not only on
absent or empty-string values — a record carrying a present required field
whose value is falsy (for example the integer 0 that `process_data` installs
as `elixir_cost` when the raw item lacks `elixirCost`) fails `validate_data`
and discards the whole batch. -/
theorem C10_falsy_validation :
    (∀ (cfg : Config) (st : AgentState) (batch : List Item) (it : Item)
      (f : String) (v : Value), it ∈ batch → f ∈ cfg.required_fields →
      lookupField it f = some v → v.truthy = false →
      validate_data cfg.required_fields batch = false ∧
      store_step cfg batch st = st) ∧
    (∀ (raw : Item) (nowIso : String), lookupField raw "elixirCost" = none →
      lookupField (process_item nowIso raw) "elixir_cost" = some (Value.int 0)) := by
  constructor
  · intro cfg st batch it f v hit hf hlook htr
    have hft : fieldTruthy it f = false := by
      unfold fieldTruthy
      rw [hlook]
      exact htr
    have hv := validate_data_false_of_bad cfg.required_fields batch it hit f hf hft
    exact ⟨hv, store_step_of_invalid cfg batch st hv⟩
  · intro raw nowIso h
    have h2 : getFieldD raw "elixirCost" (Value.int 0) = Value.int 0 := by
      rw [getFieldD, h]
      rfl
    simp [process_item, lookupField, List.find?, h2]

/-- Witness for C10 at the concrete zero-elixir card. -/
theorem C10_falsy_validation_witness :
    validate_data cfgFourFields.required_fields [cardZeroElixir] = false ∧
    store_step cfgFourFields [cardZeroElixir] (init_state cfgFourFields) =
      init_state cfgFourFields :=
  (C10_falsy_validation).1 cfgFourFields (init_state cfgFourFields) [cardZeroElixir]
    cardZeroElixir "elixir_cost" (Value.int 0) (by decide) (by decide) (by decide)
    (by decide)

/-- A counted fraction over a non-empty list lies in [0, 1]. -/
theorem countP_div_length_mem_unit (p : Item → Bool) (store : List Item)
    (hne : store ≠ []) :
    0 ≤ (store.countP p : ℚ) / (store.length : ℚ) ∧
    (store.countP p : ℚ) / (store.length : ℚ) ≤ 1 := by
  have hlen : 0 < (store.length : ℚ) := by
    have h := List.length_pos.2 hne
    exact_mod_cast h
  constructor
  · positivity
  · rw [div_le_one hlen]
    exact_mod_cast List.countP_le_length p

/-- The completeness sub-score lies in [0, 1]. -/
theorem check_completeness_mem_unit (cfg : Config) (store : List Item) :
    0 ≤ check_completeness cfg store ∧ check_completeness cfg store ≤ 1 := by
  by_cases h : store = []
  · subst h
    simp [check_completeness]
  · rw [check_completeness, if_neg (by simp [isEmpty_false_of_ne_nil store h])]
    exact countP_div_length_mem_unit _ store h

/-- The timeliness sub-score lies in [0, 1]. -/
theorem check_timeliness_mem_unit (cfg : Config) (parseIso : String → Option ℚ)
    (now : ℚ) (store : List Item) :
    0 ≤ check_timeliness cfg parseIso now store ∧
    check_timeliness cfg parseIso now store ≤ 1 := by
  by_cases h : store = []
  · subst h
    simp [check_timeliness]
  · rw [check_timeliness, if_neg (by simp [isEmpty_false_of_ne_nil store h])]
    exact countP_div_length_mem_unit _ store h

/-- C5: the overall quality score is 0 on an empty dataset, and otherwise the
unweighted mean of the four sub-scores with accuracy fixed at 0.9 and
consistency fixed at 0.85, always a value in [0, 1]; on a dataset of two
records, both complete and both fresh, it is exactly 15/16 = 0.9375. -/
theorem C5_assess_quality (cfg : Config) (parseIso : String → Option ℚ) (now : ℚ) :
    assess_data_quality cfg parseIso now [] = 0 ∧
    (∀ store : List Item, store ≠ [] →
      assess_data_quality cfg parseIso now store =
        (check_completeness cfg store + check_accuracy + check_consistency +
          check_timeliness cfg parseIso now store) / 4) ∧
    (∀ store : List Item, 0 ≤ assess_data_quality cfg parseIso now store ∧
      assess_data_quality cfg parseIso now store ≤ 1) ∧
    (∀ r1 r2 : Item,
      cfg.required_fields.all (fieldTruthy r1) = true →
      cfg.required_fields.all (fieldTruthy r2) = true →
      isFresh cfg parseIso now r1 = true →
      isFresh cfg parseIso now r2 = true →
      assess_data_quality cfg parseIso now [r1, r2] = 15/16) := by
  have hmean : ∀ store : List Item, store ≠ [] →
      assess_data_quality cfg parseIso now store =
        (check_completeness cfg store + check_accuracy + check_consistency +
          check_timeliness cfg parseIso now store) / 4 := by
    intro store hne
    rw [assess_data_quality, if_neg (by simp [isEmpty_false_of_ne_nil store hne])]
  refine ⟨rfl, hmean, fun store => ?_, fun r1 r2 h1 h2 h3 h4 => ?_⟩
  · by_cases h : store = []
    · subst h
      norm_num [assess_data_quality]
    · rw [hmean store h]
      have hc := check_completeness_mem_unit cfg store
      have ht := check_timeliness_mem_unit cfg parseIso now store
      rw [check_accuracy, check_consistency]
      constructor <;> linarith [hc.1, hc.2, ht.1, ht.2]
  · rw [hmean [r1, r2] (by simp)]
    have hcomp : check_completeness cfg [r1, r2] = 1 := by
      rw [check_completeness]
      simp only [List.isEmpty_cons, if_false, Bool.false_eq_true]
      rw [List.countP_cons, List.countP_cons, List.countP_nil]
      rw [h1, h2]
      norm_num
    have htime : check_timeliness cfg parseIso now [r1, r2] = 1 := by
      rw [check_timeliness]
      simp only [List.isEmpty_cons, if_false, Bool.false_eq_true]
      rw [List.countP_cons, List.countP_cons, List.countP_nil]
      rw [h3, h4]
      norm_num
    rw [hcomp, htime, check_accuracy, check_consistency]
    norm_num

/-- Environment pieces for concrete evaluations: a parser sending every
timestamp string to epoch second 0. -/
def parseAtZero : String → Option ℚ := fun _ => some 0

/-- Witness for C5 on the two-record dataset `[cardGood, cardGood]` under a
single required field and a 24-hour freshness window at time 0. -/
theorem C5_assess_quality_witness :
    assess_data_quality { required_fields := ["name"] } parseAtZero 0
      [cardGood, cardGood] = 15/16 := by
  have hlook : lookupField cardGood "collected_at" =
      some (Value.str "2026-10-12T00:00:00") := by decide
  have hf : isFresh { required_fields := ["name"] } parseAtZero 0 cardGood = true := by
    unfold isFresh
    rw [hlook]
    dsimp only
    rw [show parseAtZero "2026-10-12T00:00:00" = some 0 from rfl]
    simp only [decide_eq_true_eq]
    norm_num
  exact (C5_assess_quality { required_fields := ["name"] } parseAtZero 0).2.2.2
    cardGood cardGood (by decide) (by decide) hf hf

/-- C8: the timeliness sub-score is 0 on an empty dataset and otherwise the
number of fresh records (those whose `collected_at` parses and whose age is
at most `max_age_hours`) divided by the total number of records; records
with an absent, non-string or unparsable `collected_at` are excluded from
the numerator while still counted in the denominator. -/
theorem C8_timeliness (cfg : Config) (parseIso : String → Option ℚ) (now : ℚ) :
    check_timeliness cfg parseIso now [] = 0 ∧
    (∀ store : List Item, store ≠ [] →
      check_timeliness cfg parseIso now store =
        ((store.filter (isFresh cfg parseIso now)).length : ℚ) /
          (store.length : ℚ)) ∧
    (∀ it : Item, lookupField it "collected_at" = none →
      isFresh cfg parseIso now it = false) ∧
    (∀ (it : Item) (s : String),
      lookupField it "collected_at" = some (Value.str s) → parseIso s = none →
      isFresh cfg parseIso now it = false) ∧
    (∀ (it : Item) (s : String) (t : ℚ),
      lookupField it "collected_at" = some (Value.str s) → parseIso s = some t →
      (isFresh cfg parseIso now it = true ↔ (now - t) / 3600 ≤ cfg.max_age_hours)) := by
  refine ⟨rfl, fun store hne => ?_, fun it h => ?_, fun it s h1 h2 => ?_,
    fun it s t h1 h2 => ?_⟩
  · rw [check_timeliness, if_neg (by simp [isEmpty_false_of_ne_nil store hne]),
      List.countP_eq_length_filter]
  · unfold isFresh
    rw [h]
  · unfold isFresh
    rw [h1]
    dsimp only
    rw [h2]
  · unfold isFresh
    rw [h1]
    dsimp only
    rw [h2]
    simp

/-- Witness for C8 on the one-record dataset `[cardGood]`. -/
theorem C8_timeliness_witness :
    check_timeliness {} parseAtZero 0 [cardGood] =
      (([cardGood].filter (isFresh {} parseAtZero 0)).length : ℚ) /
        (([cardGood] : List Item).length : ℚ) :=
  (C8_timeliness {} parseAtZero 0).2.1 [cardGood] (by simp)

/-- Iteration count and final counter of the collection loop, by induction on
the remaining request budget. -/
theorem collect_data_count (cfg : Config) (env : Nat → FetchResult)
    (iso : Nat → String) :
    ∀ (n k : Nat) (st : AgentState),
      cfg.max_requests - st.stats.total_requests = n →
      st.stats.total_requests ≤ cfg.max_requests →
      (collect_data cfg env iso k st).2 = n ∧
      (collect_data cfg env iso k st).1.stats.total_requests = cfg.max_requests := by
  intro n
  induction n with
  | zero =>
      intro k st h hle
      have hge : st.stats.total_requests ≥ cfg.max_requests := by omega
      rw [collect_data, dif_pos hge]
      refine ⟨rfl, ?_⟩
      show st.stats.total_requests = cfg.max_requests
      omega
  | succ n ih =>
      intro k st h hle
      have hlt : ¬ st.stats.total_requests ≥ cfg.max_requests := by omega
      rw [collect_data, dif_neg hlt]
      have htot := collect_iteration_total cfg (env k) (iso k) st
      have hrec := ih (k + 1) (collect_iteration cfg (env k) (iso k) st)
        (by omega) (by omega)
      dsimp only
      exact ⟨by rw [hrec.1], hrec.2⟩

/-- C6: starting from zero requests, the collection loop performs exactly
`max_requests` iterations, stops with `total_requests = max_requests`
(the loop condition `total_requests >= max_requests` is its only exit), and
every iteration runs exactly one fetch cycle which increments
`total_requests` by exactly one. -/
theorem C6_loop_termination (cfg : Config) (env : Nat → FetchResult)
    (iso : Nat → String) (st0 : AgentState)
    (h0 : st0.stats.total_requests = 0) :
    (collect_data cfg env iso 0 st0).2 = cfg.max_requests ∧
    (collect_data cfg env iso 0 st0).1.stats.total_requests = cfg.max_requests ∧
    (∀ (r : FetchResult) (s : String) (st : AgentState),
      (collect_iteration cfg r s st).stats.total_requests =
        st.stats.total_requests + 1) := by
  have h := collect_data_count cfg env iso
    (cfg.max_requests - st0.stats.total_requests) 0 st0 rfl (by omega)
  refine ⟨?_, h.2, fun r s st => collect_iteration_total cfg r s st⟩
  rw [h.1, h0]
  omega

/-- Witness for C6: with a 3-request budget and an environment that always
fails at network level, the loop runs exactly 3 iterations. -/
theorem C6_loop_termination_witness :
    (collect_data { max_requests := 3 } (fun _ => FetchResult.netError)
      (fun _ => "") 0 (init_state { max_requests := 3 })).2 =
      ({ max_requests := 3 : Config }).max_requests :=
  (C6_loop_termination { max_requests := 3 } (fun _ => FetchResult.netError)
    (fun _ => "") (init_state { max_requests := 3 }) rfl).1

end Agent
